import Mathlib

/-!
Shallow embedding of the core of `traffic.py` (ErfanZohrabi/traffic-control):
the traffic-light phase state machine (`TrafficLight`), the windowed density
estimator (`TrafficDensityCalculator`), the coordination engine
(`TrafficLightController`), and the registration / read-loop logic of the
control-plane server (`CommunicationManager`).

Python floats and timestamps are modelled as rationals (`ℚ`); `time.time()`
becomes an explicit `now : ℚ` argument; Python dicts become association
lists; fallible code returns `Option`.
-/

namespace Traffic

/-- The three phases of a signal, the strings `red`, `yellow`, `green`
of the source. -/
inductive Phase where
  | red
  | yellow
  | green
deriving DecidableEq, Repr

open Phase

/-- One record of `TrafficLight.timing_history` (traffic.py:318-323). -/
structure TimingRecord where
  timestamp : ℚ
  phase : Phase
  old_value : ℚ
  new_value : ℚ
deriving DecidableEq, Repr

/-- A timing table: one duration per phase, the `self.timing` dict whose keys
are exactly `green`, `yellow`, `red`. -/
structure Timing where
  green : ℚ
  yellow : ℚ
  red : ℚ
deriving DecidableEq, Repr

/-- Read `timing[phase]`. -/
def Timing.get (t : Timing) : Phase → ℚ
  | .green => t.green
  | .yellow => t.yellow
  | .red => t.red

/-- Write `timing[phase] = v`. -/
def Timing.set (t : Timing) : Phase → ℚ → Timing
  | .green, v => { t with green := v }
  | .yellow, v => { t with yellow := v }
  | .red, v => { t with red := v }

/-- `TrafficLight` state (traffic.py:245-269). -/
structure TrafficLight where
  id : String
  timing : Timing
  current_phase : Phase
  phase_start_time : ℚ
  connected_lights : List String
  timing_history : List TimingRecord
deriving DecidableEq, Repr

namespace TrafficLight

/-- The default timing used when `initial_timing is None` (traffic.py:256-261). -/
def defaultTiming : Timing := { green := 30, yellow := 5, red := 30 }

/-- `TrafficLight.__init__(id, initial_timing)` (traffic.py:245-271): the
caller-supplied timing is stored unvalidated; the initial phase is `red`;
`phase_start_time` is the construction time. -/
def init (id : String) (initial_timing : Option Timing) (now : ℚ) : TrafficLight :=
  { id := id
    timing := initial_timing.getD defaultTiming
    current_phase := Phase.red
    phase_start_time := now
    connected_lights := []
    timing_history := [] }

/-- The phase transition order of `transition_to_next_phase`
(traffic.py:286-292): `green → yellow`, `yellow → red`, `red → green`. -/
def nextPhase : Phase → Phase
  | .green => .yellow
  | .yellow => .red
  | .red => .green

/-- `transition_to_next_phase` (traffic.py:284-299): steps to the cyclic
successor and resets `phase_start_time` to the current time. -/
def transition_to_next_phase (l : TrafficLight) (now : ℚ) : TrafficLight :=
  { l with current_phase := nextPhase l.current_phase, phase_start_time := now }

/-- `get_current_phase` (traffic.py:273-282): if the elapsed time reaches the
duration of the current phase, perform one transition; return the (possibly new)
phase together with the updated state. -/
def get_current_phase (l : TrafficLight) (now : ℚ) : Phase × TrafficLight :=
  let elapsed := now - l.phase_start_time
  if elapsed ≥ l.timing.get l.current_phase then
    let l' := l.transition_to_next_phase now
    (l'.current_phase, l')
  else
    (l.current_phase, l)

/-- `adjust_timing` (traffic.py:301-329): with the phase given as one of the
three valid keys the membership test `phase not in self.timing` never fires;
yellow is floored at 3; the adjustment is appended to `timing_history`. -/
def adjust_timing (l : TrafficLight) (phase : Phase) (new_time : ℚ) (now : ℚ) :
    Bool × TrafficLight :=
  let new_time := if phase = Phase.yellow ∧ new_time < 3 then 3 else new_time
  let rec_ : TimingRecord :=
    { timestamp := now, phase := phase
      old_value := l.timing.get phase, new_value := new_time }
  (true, { l with
             timing := l.timing.set phase new_time
             timing_history := l.timing_history ++ [rec_] })

/-- `get_time_remaining` (traffic.py:331-337). -/
def get_time_remaining (l : TrafficLight) (now : ℚ) : ℚ :=
  max 0 (l.timing.get l.current_phase - (now - l.phase_start_time))

/-- `force_phase` (traffic.py:339-349): with the phase given as a `Phase` the
validity test always passes; the phase is set and the clock reset. -/
def force_phase (l : TrafficLight) (new_phase : Phase) (now : ℚ) :
    Bool × TrafficLight :=
  (true, { l with current_phase := new_phase, phase_start_time := now })

/-- The operations that can touch a single `TrafficLight` after construction:
a clock tick observed through `get_current_phase`, a timing adjustment, or a
forced phase (used only by the green-wave override). -/
inductive Op where
  | tick (now : ℚ)
  | adjust (phase : Phase) (new_time : ℚ) (now : ℚ)
  | force (phase : Phase) (now : ℚ)
deriving DecidableEq, Repr

/-- Apply one operation to a light. -/
def step (l : TrafficLight) : Op → TrafficLight
  | .tick now => (l.get_current_phase now).2
  | .adjust p t now => (l.adjust_timing p t now).2
  | .force p now => (l.force_phase p now).2

/-- Apply a sequence of operations. -/
def run (l : TrafficLight) (ops : List Op) : TrafficLight :=
  ops.foldl step l

end TrafficLight

/-- Append to a `collections.deque(maxlen=maxlen)`: the new element goes to
the back; if the deque would exceed `maxlen` the oldest elements are dropped
from the front. -/
def dequeAppend (maxlen : Nat) (xs : List ℚ) (x : ℚ) : List ℚ :=
  if maxlen < (xs ++ [x]).length then (xs ++ [x]).drop ((xs ++ [x]).length - maxlen)
  else xs ++ [x]

/-- The last `n` elements of a list, in order. -/
def lastN (n : Nat) (xs : List ℚ) : List ℚ :=
  xs.drop (xs.length - n)

/-- `TrafficDensityCalculator` state (traffic.py:147-159); the
`last_update_time` field only feeds a discarded `time_diff` and is omitted. -/
structure TrafficDensityCalculator where
  window_size : Nat
  congestion_threshold : ℚ
  vehicle_counts : List ℚ
  density_history : List ℚ
deriving DecidableEq, Repr

namespace TrafficDensityCalculator

/-- `TrafficDensityCalculator.__init__` (traffic.py:147-159): empty window,
empty history. Defaults are `window_size=10`, `congestion_threshold=15`. -/
def init (window_size : Nat := 10) (congestion_threshold : ℚ := 15) :
    TrafficDensityCalculator :=
  { window_size := window_size
    congestion_threshold := congestion_threshold
    vehicle_counts := []
    density_history := [] }

/-- `calculate_density` (traffic.py:176-186): `0` on an empty window, else
`min(1.0, mean(window) / congestion_threshold)`. -/
def calculate_density (c : TrafficDensityCalculator) : ℚ :=
  if c.vehicle_counts = [] then 0
  else
    let avg_count := c.vehicle_counts.sum / c.vehicle_counts.length
    min 1 (avg_count / c.congestion_threshold)

/-- `update` (traffic.py:161-174): push the count into the bounded window,
recompute the density, push it into the bounded history, return it. -/
def update (c : TrafficDensityCalculator) (vehicle_count : ℚ) :
    ℚ × TrafficDensityCalculator :=
  let c := { c with
               vehicle_counts := dequeAppend c.window_size c.vehicle_counts vehicle_count }
  let density := c.calculate_density
  (density, { c with density_history := dequeAppend 100 c.density_history density })

/-- Feed a whole sequence of counts through `update`. -/
def run (c : TrafficDensityCalculator) (counts : List ℚ) : TrafficDensityCalculator :=
  counts.foldl (fun s x => (s.update x).2) c

end TrafficDensityCalculator

/-- Python `int()` applied to a rational: truncation toward zero. -/
def pyInt (q : ℚ) : ℤ :=
  if 0 ≤ q then ⌊q⌋ else ⌈q⌉

/-- Look up a key in an association list (a Python dict read). -/
def alistGet? {α : Type} (m : List (String × α)) (k : String) : Option α :=
  (m.find? (fun e => e.1 = k)).map Prod.snd

/-- `dict.get(k, d)`: lookup with default. -/
def alistGetD {α : Type} (m : List (String × α)) (k : String) (d : α) : α :=
  (alistGet? m k).getD d

/-- `m[k] = v` on a Python dict: overwrite the existing entry, else append. -/
def alistSet {α : Type} (m : List (String × α)) (k : String) (v : α) :
    List (String × α) :=
  if (alistGet? m k).isSome then
    m.map (fun e => if e.1 = k then (k, v) else e)
  else
    m ++ [(k, v)]

/-- `TrafficLightController` state (traffic.py:355-359). -/
structure TrafficLightController where
  traffic_lights : List (String × TrafficLight)
  traffic_densities : List (String × ℚ)
  coordination_groups : List (List String)
deriving DecidableEq, Repr

namespace TrafficLightController

/-- `TrafficLightController.__init__` (traffic.py:355-359). -/
def init : TrafficLightController :=
  { traffic_lights := [], traffic_densities := [], coordination_groups := [] }

/-- `add_traffic_light` (traffic.py:361-371): idempotent registration; a new
id gets a fresh light and a `0.0` density entry. -/
def add_traffic_light (c : TrafficLightController) (id : String)
    (initial_timing : Option Timing) (now : ℚ) : TrafficLightController :=
  if (alistGet? c.traffic_lights id).isSome then c
  else
    { c with
        traffic_lights := c.traffic_lights ++ [(id, TrafficLight.init id initial_timing now)]
        traffic_densities := c.traffic_densities ++ [(id, 0)] }

/-- `_adjust_timing_based_on_density` (traffic.py:387-410): green time is
`int(30 + (60-30)*density)` clamped to `[15, 60]`; red time is
`max(15, int(30 * (1 - density*0.5)))`; yellow is left alone; both are
applied through `adjust_timing`. Assumes the light is present (the caller
checked). -/
def adjust_timing_based_on_density (c : TrafficLightController) (light_id : String)
    (density : ℚ) (now : ℚ) : TrafficLightController :=
  match alistGet? c.traffic_lights light_id with
  | none => c
  | some light =>
    let new_green_time : ℤ := pyInt (30 + (60 - 30) * density)
    let new_green_time : ℤ := max 15 (min 60 new_green_time)
    let red_time : ℤ := max 15 (pyInt (30 * (1 - density * (1/2))))
    let light := (light.adjust_timing Phase.green (new_green_time : ℚ) now).2
    let light := (light.adjust_timing Phase.red (red_time : ℚ) now).2
    { c with traffic_lights := alistSet c.traffic_lights light_id light }

/-- `update_traffic_density` (traffic.py:373-385): unknown ids are rejected
with `False` and no mutation; otherwise the density entry is stored and the
timing-adjustment policy runs. -/
def update_traffic_density (c : TrafficLightController) (light_id : String)
    (density : ℚ) (now : ℚ) : Bool × TrafficLightController :=
  if (alistGet? c.traffic_lights light_id).isSome then
    let c := { c with traffic_densities := alistSet c.traffic_densities light_id density }
    (true, c.adjust_timing_based_on_density light_id density now)
  else
    (false, c)

/-- One iteration of the connection loop of `create_coordination_group`
(traffic.py:424-426): set the field `connected_lights` of the member to the other
members of the group.  (A missing id cannot occur after validation.) -/
def connectStep (light_ids : List String) (m : List (String × TrafficLight))
    (light_id : String) : List (String × TrafficLight) :=
  match alistGet? m light_id with
  | none => m
  | some light =>
    alistSet m light_id
      { light with connected_lights := light_ids.filter (fun i => i ≠ light_id) }

/-- The connection loop of `create_coordination_group` over `todo`. -/
def connectGroup (light_ids todo : List String)
    (m : List (String × TrafficLight)) : List (String × TrafficLight) :=
  todo.foldl (connectStep light_ids) m

/-- `create_coordination_group` (traffic.py:412-428): all ids are validated
before any mutation; on success the group is appended and the field `connected_lights` of each member is set to the other members. -/
def create_coordination_group (c : TrafficLightController) (light_ids : List String) :
    Bool × TrafficLightController :=
  if light_ids.all (fun i => (alistGet? c.traffic_lights i).isSome) then
    (true, { c with
               coordination_groups := c.coordination_groups ++ [light_ids]
               traffic_lights := connectGroup light_ids light_ids c.traffic_lights })
  else
    (false, c)

/-- One iteration of the max-density scan of `_coordinate_group`
(traffic.py:443-451): the density of each member is read with `.get(id, 0)` and
only a strictly greater density replaces the champion, so ties keep the
earliest member.  `max_density` starts at `-1`. -/
def scanMaxAux (densities : List (String × ℚ)) (acc : ℚ × Option String) :
    List String → ℚ × Option String
  | [] => acc
  | light_id :: rest =>
    scanMaxAux densities
      (if alistGetD densities light_id 0 > acc.1
       then (alistGetD densities light_id 0, some light_id) else acc) rest

/-- The max-density scan of `_coordinate_group` (traffic.py:443-451). -/
def scanMaxDensity (densities : List (String × ℚ)) (light_ids : List String) :
    ℚ × Option String :=
  scanMaxAux densities (-1, none) light_ids

/-- `_force_green_wave` (traffic.py:464-520): the starting light is forced
green unless it is already green, is red and about to cycle
(`get_time_remaining() < 5`), or is yellow; the offset loop after it only
reads each remaining light and logs, so it is a no-op on the state, but a
missing light there would raise `KeyError` (`none`). -/
def force_green_wave (c : TrafficLightController) (light_ids : List String)
    (starting_light_id : String) (now : ℚ) : Option TrafficLightController :=
  match alistGet? c.traffic_lights starting_light_id with
  | none => none
  | some starting_light =>
    let c' :=
      if starting_light.current_phase ≠ Phase.green then
        if starting_light.current_phase = Phase.red ∧
            starting_light.get_time_remaining now < 5 then c
        else if starting_light.current_phase = Phase.yellow then c
        else
          { c with traffic_lights :=
              (alistSet c.traffic_lights starting_light_id
                (starting_light.force_phase Phase.green now).2) }
      else c
    if (light_ids.drop 1).all (fun i => (alistGet? c'.traffic_lights i).isSome) then
      some c'
    else none

/-- `_coordinate_group` (traffic.py:438-462): groups with fewer than two
members are skipped; otherwise the max-density member is found; a falsy
champion (`None`, or the empty-string id) aborts; if the champion is not
green and its density exceeds `0.7`, the green-wave override runs. A missing
champion light raises `KeyError` (`none`). -/
def coordinate_group (c : TrafficLightController) (light_ids : List String)
    (now : ℚ) : Option TrafficLightController :=
  if light_ids.length < 2 then some c
  else
    let scan := scanMaxDensity c.traffic_densities light_ids
    match scan.2 with
    | none => some c
    | some max_density_light =>
      if max_density_light = "" then some c
      else
        match alistGet? c.traffic_lights max_density_light with
        | none => none
        | some prioritized_light =>
          if prioritized_light.current_phase ≠ Phase.green ∧ scan.1 > 7/10 then
            c.force_green_wave light_ids max_density_light now
          else some c

/-- `coordinate_lights` (traffic.py:430-436): run `_coordinate_group` on
every stored group in order. -/
def coordinate_lights (c : TrafficLightController) (now : ℚ) :
    Option TrafficLightController :=
  c.coordination_groups.foldl
    (fun acc group => acc.bind (fun s => s.coordinate_group group now))
    (some c)

end TrafficLightController

/-! ## CommunicationManager (traffic.py:527-728)

The control-plane server.  Sockets are abstracted as numeric handles; the
byte stream of a connection is a `List Char`. -/

/-- An abstract socket handle. -/
abbrev Conn := Nat

/-- Outcome of the first `recv` on a fresh connection, with `json.loads`
abstracted to its result: the connection closed before sending
(`recv` returned empty), the payload failed to parse
(`json.JSONDecodeError`), or a JSON object whose fields are modelled as
string-to-string bindings. -/
inductive FirstRecv where
  | closed
  | malformed
  | msg (fields : List (String × String))
deriving DecidableEq, Repr

/-- The registration step of `_handle_client` (traffic.py:589-612): an empty
read or malformed JSON drops the connection with no registration; a parsed
message registers iff it carries an `id` field — the `type` field is never
inspected.  Returns the registered id (if any) and the updated
`client_connections` map. -/
def handle_registration (conns : List (String × Conn)) (r : FirstRecv)
    (sock : Conn) : Option String × List (String × Conn) :=
  match r with
  | .closed => (none, conns)
  | .malformed => (none, conns)
  | .msg fields =>
    match alistGet? fields "id" with
    | some client_id => (some client_id, alistSet conns client_id sock)
    | none => (none, conns)

/-- The opening-brace character of JSON, kept symbolic. -/
def lbrace : Char := Char.ofNat 123

/-- The closing-brace character of JSON. -/
def rbrace : Char := Char.ofNat 125

/-- Scan a JSON string body after its opening quote: the content up to the
next `"` and the remainder.  (Escape sequences are outside the modelled
subset.) -/
def scanJString (acc : List Char) : List Char → Option (List Char × List Char)
  | [] => none
  | c :: rest =>
    if c = '"' then some (acc.reverse, rest) else scanJString (c :: acc) rest

/-- Parse one `"key":"value"` field of a flat JSON object. -/
def parseJField (s : List Char) : Option ((List Char × List Char) × List Char) :=
  match s with
  | '"' :: rest =>
    match scanJString [] rest with
    | some (key, ':' :: '"' :: rest2) =>
      match scanJString [] rest2 with
      | some (v, rest3) => some ((key, v), rest3)
      | none => none
    | _ => none
  | _ => none

/-- Parse the fields of a flat JSON object after the opening brace, up to a
closing brace that must end the input (as `json.loads` rejects both a
truncated document and trailing data). -/
def parseJFields : Nat → List Char → Option (List (List Char × List Char))
  | 0, _ => none
  | fuel + 1, s =>
    match parseJField s with
    | some (kv, rest) =>
      match rest with
      | [c] => if c = rbrace then some [kv] else none
      | ',' :: rest2 =>
        match parseJFields fuel rest2 with
        | some kvs => some (kv :: kvs)
        | none => none
      | _ => none
    | none => none

/-- `json.loads` on the modelled subset — flat objects with unescaped string
keys and values, no surrounding whitespace: a document parses iff it is a
single complete object; a truncated object or one with bytes following the
closing brace fails, exactly as `json.loads` fails on those inputs. -/
def json_loads (s : List Char) : Option (List (List Char × List Char)) :=
  match s with
  | [] => none
  | c :: rest =>
    if c = lbrace then
      match rest with
      | [d] => if d = rbrace then some [] else none
      | _ => parseJFields (rest.length + 1) rest
    else none

/-- Cut a byte stream into the successive chunks returned by
`client_socket.recv(n)` when each read returns a full buffer until the data
runs out — the delivery pattern of a message larger than one buffer. -/
def recvChunksAux : Nat → Nat → List Char → List (List Char)
  | 0, _, _ => []
  | _ + 1, _, [] => []
  | fuel + 1, n, s => s.take n :: recvChunksAux fuel n (s.drop n)

/-- The chunk sequence of a whole stream under fixed-size reads. -/
def recvChunks (n : Nat) (s : List Char) : List (List Char) :=
  recvChunksAux (s.length + 1) n s

/-- The post-registration read loop of `_handle_client`
(traffic.py:614-626): each `recv(1024)` chunk is decoded and passed to
`json.loads` on its own; chunks that parse are enqueued, chunks that do not
are logged and dropped.  The result is the list of messages the loop
actually parses out of the stream. -/
def client_loop_messages (bufSize : Nat) (stream : List Char) :
    List (List (List Char × List Char)) :=
  (recvChunks bufSize stream).filterMap json_loads

/-- A single `status_update` message whose `data` field is 1060 characters,
1094 bytes in all — longer than the 1024-byte read buffer of
`_handle_client`. -/
def bigMsg : List Char :=
  (lbrace :: String.toList "\"type\":\"status_update\",\"data\":\"")
    ++ List.replicate 1060 'x' ++ ['"', rbrace]

/-- A short complete JSON message. -/
def msgA : List Char := lbrace :: String.toList "\"id\":\"L1\"" ++ [rbrace]

/-- Another short complete JSON message. -/
def msgB : List Char :=
  lbrace :: String.toList "\"type\":\"status_update\"" ++ [rbrace]

/-! ## Concrete states used by the claim witnesses and counterexamples. -/

/-- A controller with a single light `A` registered at time `0`. -/
def oneLightCtrl : TrafficLightController :=
  TrafficLightController.init.add_traffic_light "A" none 0

/-- A controller with lights `A` and `B` registered at time `0`. -/
def twoLightCtrl : TrafficLightController :=
  (TrafficLightController.init.add_traffic_light "A" none 0).add_traffic_light
    "B" none 0

/-- `twoLightCtrl` after driving `A` to density `0.9` and `B` to `0.1`. -/
def hotColdCtrl : TrafficLightController :=
  ((twoLightCtrl.update_traffic_density "A" (9/10) 0).2.update_traffic_density
    "B" (1/10) 0).2

/-- A controller whose single light `A` has density `0.9` and sits alone in a
coordination group of size one. -/
def singletonGroupCtrl : TrafficLightController :=
  (((oneLightCtrl.update_traffic_density "A" (9/10) 0).2).create_coordination_group
    ["A"]).2

/-! ## Association-list lemmas (Python dict reads after writes). -/

theorem alistGet?_map_set {α : Type} (m : List (String × α)) (k : String) (v : α) :
    alistGet? (m.map (fun e => if e.1 = k then (k, v) else e)) k
      = (alistGet? m k).map (fun _ => v) := by
  induction m with
  | nil => rfl
  | cons e t ih =>
    by_cases he : e.1 = k
    · simp [alistGet?, List.find?_cons, he]
    · simpa [alistGet?, List.find?_cons, he] using ih

theorem alistGet?_map_set_other {α : Type} (m : List (String × α)) (k k' : String)
    (v : α) (hk : k' ≠ k) :
    alistGet? (m.map (fun e => if e.1 = k then (k, v) else e)) k'
      = alistGet? m k' := by
  induction m with
  | nil => rfl
  | cons e t ih =>
    simp only [List.map_cons]
    unfold alistGet? at ih ⊢
    by_cases he' : e.1 = k'
    · have he : ¬ e.1 = k := by rw [he']; exact hk
      have h1 : (if e.1 = k then (k, v) else e) = e := by simp [he]
      rw [h1, List.find?_cons_of_pos _ (by simpa using he'),
        List.find?_cons_of_pos _ (by simpa using he')]
    · by_cases he : e.1 = k
      · have h1 : (if e.1 = k then (k, v) else e) = (k, v) := by simp [he]
        rw [h1, List.find?_cons_of_neg _ (by simpa using fun h => hk h.symm),
          List.find?_cons_of_neg _ (by simpa using he')]
        exact ih
      · have h1 : (if e.1 = k then (k, v) else e) = e := by simp [he]
        rw [h1, List.find?_cons_of_neg _ (by simpa using he'),
          List.find?_cons_of_neg _ (by simpa using he')]
        exact ih

theorem alistGet?_append_single {α : Type} (m : List (String × α)) (k : String)
    (v : α) (h : alistGet? m k = none) :
    alistGet? (m ++ [(k, v)]) k = some v := by
  induction m with
  | nil => simp [alistGet?]
  | cons e t ih =>
    by_cases he : e.1 = k
    · simp [alistGet?, List.find?_cons, he] at h
    · have ht : alistGet? t k = none := by
        simpa [alistGet?, List.find?_cons, he] using h
      simpa [alistGet?, List.find?_cons, he] using ih ht

theorem alistGet?_append_single_other {α : Type} (m : List (String × α))
    (k k' : String) (v : α) (hk : k' ≠ k) :
    alistGet? (m ++ [(k, v)]) k' = alistGet? m k' := by
  have hkk : k ≠ k' := fun h => hk h.symm
  induction m with
  | nil => simp [alistGet?, List.find?_cons, hkk]
  | cons e t ih =>
    by_cases he : e.1 = k'
    · simp [alistGet?, List.find?_cons, he]
    · simpa [alistGet?, List.find?_cons, he] using ih

theorem alistGet?_set_self {α : Type} (m : List (String × α)) (k : String) (v : α) :
    alistGet? (alistSet m k v) k = some v := by
  unfold alistSet
  by_cases h : (alistGet? m k).isSome
  · rcases Option.isSome_iff_exists.mp h with ⟨w, hw⟩
    simp [h, alistGet?_map_set, hw]
  · have h0 : alistGet? m k = none := Option.not_isSome_iff_eq_none.mp h
    simp [h, alistGet?_append_single m k v h0]

theorem alistGet?_set_other {α : Type} (m : List (String × α)) (k k' : String)
    (v : α) (hk : k' ≠ k) :
    alistGet? (alistSet m k v) k' = alistGet? m k' := by
  unfold alistSet
  by_cases h : (alistGet? m k).isSome
  · simp [h, alistGet?_map_set_other m k k' v hk]
  · simp [h, alistGet?_append_single_other m k k' v hk]

theorem alistGet?_set_isSome {α : Type} (m : List (String × α)) (k k' : String)
    (v : α) (h : (alistGet? m k').isSome) :
    (alistGet? (alistSet m k v) k').isSome := by
  by_cases hk : k' = k
  · subst hk; simp [alistGet?_set_self]
  · rwa [alistGet?_set_other m k k' v hk]

/-! ## The phase state machine (claims C2, C3, C10). -/

theorem adjust_timing_yellow_floor (l : TrafficLight) (p : Phase) (x now : ℚ)
    (h : 3 ≤ l.timing.get Phase.yellow) :
    3 ≤ ((l.adjust_timing p x now).2).timing.get Phase.yellow := by
  cases p with
  | yellow =>
    simp only [TrafficLight.adjust_timing, Timing.set, Timing.get]
    by_cases hx : x < 3
    · simp [hx]
    · simp [hx]; linarith
  | green => simpa [TrafficLight.adjust_timing, Timing.set, Timing.get] using h
  | red => simpa [TrafficLight.adjust_timing, Timing.set, Timing.get] using h

theorem step_yellow_floor (l : TrafficLight) (op : TrafficLight.Op)
    (h : 3 ≤ l.timing.get Phase.yellow) :
    3 ≤ (TrafficLight.step l op).timing.get Phase.yellow := by
  cases op with
  | tick now =>
    simp only [TrafficLight.step, TrafficLight.get_current_phase]
    split
    · simpa [TrafficLight.transition_to_next_phase] using h
    · simpa using h
  | adjust p x now => exact adjust_timing_yellow_floor l p x now h
  | force _ _ => simpa [TrafficLight.step, TrafficLight.force_phase] using h

theorem run_yellow_floor (ops : List TrafficLight.Op) (l : TrafficLight)
    (h : 3 ≤ l.timing.get Phase.yellow) :
    3 ≤ (TrafficLight.run l ops).timing.get Phase.yellow := by
  induction ops generalizing l with
  | nil => simpa [TrafficLight.run] using h
  | cons op rest ih =>
    simpa [TrafficLight.run] using ih (TrafficLight.step l op) (step_yellow_floor l op h)

/-- C2: every signal starts in phase `red`; the transition order is exactly
the cycle `green → yellow → red → green`; and every operation other than
`force_phase` either leaves the phase unchanged or advances it by exactly one
step of that cycle — so the observed phase never skips and never runs
backward, and `force_phase` is the only way out of cyclic order. -/
theorem c2_phase_cycle_no_skip (id : String) (it : Option Timing) (t0 : ℚ)
    (l : TrafficLight) (op : TrafficLight.Op)
    (hop : ∀ p now, op ≠ TrafficLight.Op.force p now) :
    (TrafficLight.init id it t0).current_phase = Phase.red ∧
    TrafficLight.nextPhase Phase.green = Phase.yellow ∧
    TrafficLight.nextPhase Phase.yellow = Phase.red ∧
    TrafficLight.nextPhase Phase.red = Phase.green ∧
    ((TrafficLight.step l op).current_phase = l.current_phase ∨
      (TrafficLight.step l op).current_phase
        = TrafficLight.nextPhase l.current_phase) := by
  refine ⟨rfl, rfl, rfl, rfl, ?_⟩
  cases op with
  | tick now =>
    simp only [TrafficLight.step, TrafficLight.get_current_phase]
    split
    · right; rfl
    · left; rfl
  | adjust _ _ _ => left; rfl
  | force p now => exact absurd rfl (hop p now)

theorem c2_phase_cycle_no_skip_witness :
    (TrafficLight.init "A" none 0).current_phase = Phase.red ∧
    TrafficLight.nextPhase Phase.green = Phase.yellow ∧
    TrafficLight.nextPhase Phase.yellow = Phase.red ∧
    TrafficLight.nextPhase Phase.red = Phase.green ∧
    ((TrafficLight.step (TrafficLight.init "A" none 0)
        (TrafficLight.Op.tick 100)).current_phase
        = (TrafficLight.init "A" none 0).current_phase ∨
      (TrafficLight.step (TrafficLight.init "A" none 0)
        (TrafficLight.Op.tick 100)).current_phase
        = TrafficLight.nextPhase (TrafficLight.init "A" none 0).current_phase) :=
  c2_phase_cycle_no_skip "A" none 0 (TrafficLight.init "A" none 0)
    (TrafficLight.Op.tick 100)
    (fun _ _ h => TrafficLight.Op.noConfusion h)

/-- C3 counterexample: `TrafficLight.__init__` stores a caller-supplied
timing unvalidated, so construction with `yellow = 1` yields a state with
`timing[yellow] = 1 < 3` — the invariant does not hold in every state
produced by construction. -/
theorem c3_counterexample_unvalidated_construction :
    (TrafficLight.init "A" (some { green := 30, yellow := 1, red := 30 }) 0).timing.get
        Phase.yellow = 1 ∧
    ¬ 3 ≤ (TrafficLight.init "A" (some { green := 30, yellow := 1, red := 30 }) 0).timing.get
        Phase.yellow := by
  decide

/-- C3 amended: `adjust_timing(yellow, x)` sets `timing[yellow]` to `3`
when `x < 3` and to `x` otherwise; default construction satisfies
`timing[yellow] ≥ 3`; and the invariant is preserved by every sequence of
operations from any state that satisfies it — but a caller-supplied initial
timing is stored unvalidated, so the invariant need not hold at construction. -/
theorem c3_yellow_floor_amended (l : TrafficLight) (x now : ℚ) (id : String)
    (t0 : ℚ) (ops : List TrafficLight.Op)
    (hinv : 3 ≤ l.timing.get Phase.yellow) :
    ((l.adjust_timing Phase.yellow x now).2.timing.get Phase.yellow
        = if x < 3 then 3 else x) ∧
    3 ≤ (TrafficLight.init id none t0).timing.get Phase.yellow ∧
    3 ≤ (TrafficLight.run l ops).timing.get Phase.yellow := by
  refine ⟨?_, by norm_num [TrafficLight.init, TrafficLight.defaultTiming, Timing.get],
    run_yellow_floor ops l hinv⟩
  by_cases hx : x < 3 <;>
    simp [TrafficLight.adjust_timing, Timing.set, Timing.get, hx]

theorem c3_yellow_floor_amended_witness :
    (((TrafficLight.init "A" none 0).adjust_timing Phase.yellow 1 7).2.timing.get
        Phase.yellow = if (1 : ℚ) < 3 then 3 else 1) ∧
    3 ≤ (TrafficLight.init "A" none 0).timing.get Phase.yellow ∧
    3 ≤ (TrafficLight.run (TrafficLight.init "A" none 0)
        [TrafficLight.Op.tick 50, TrafficLight.Op.adjust Phase.yellow 1 60]).timing.get
        Phase.yellow :=
  c3_yellow_floor_amended (TrafficLight.init "A" none 0) 1 7 "A" 0
    [TrafficLight.Op.tick 50, TrafficLight.Op.adjust Phase.yellow 1 60]
    (by decide)

/-- C10: one call to `get_current_phase` performs at most one transition:
even when the elapsed time exceeds the duration of the current phase plus the
duration of the next phase, the returned phase is exactly the immediate cyclic
successor (never two steps ahead) and `phase_start_time` is reset to the
time of the call; in general every call returns either the unchanged phase
or the immediate successor with the clock reset. -/
theorem c10_single_transition_per_call (l : TrafficLight) (now : ℚ)
    (hpos : 0 ≤ l.timing.get (TrafficLight.nextPhase l.current_phase))
    (hfar : l.timing.get l.current_phase
        + l.timing.get (TrafficLight.nextPhase l.current_phase)
        ≤ now - l.phase_start_time) :
    (l.get_current_phase now).1 = TrafficLight.nextPhase l.current_phase ∧
    (l.get_current_phase now).2.phase_start_time = now ∧
    (∀ (m : TrafficLight) (t : ℚ),
      (m.get_current_phase t).1 = m.current_phase ∨
        ((m.get_current_phase t).1 = TrafficLight.nextPhase m.current_phase ∧
          (m.get_current_phase t).2.phase_start_time = t)) := by
  have hcond : now - l.phase_start_time ≥ l.timing.get l.current_phase := by
    linarith
  refine ⟨?_, ?_, ?_⟩
  · simp [TrafficLight.get_current_phase, hcond, TrafficLight.transition_to_next_phase]
  · simp [TrafficLight.get_current_phase, hcond, TrafficLight.transition_to_next_phase]
  · intro m t
    simp only [TrafficLight.get_current_phase]
    split
    · right; exact ⟨rfl, rfl⟩
    · left; rfl

theorem deque_append_eq_lastN (W : Nat) (ws : List ℚ) (x : ℚ) :
    dequeAppend W ws x = lastN W (ws ++ [x]) := by
  unfold dequeAppend lastN
  split
  · rfl
  · rename_i h
    have hlen : (ws ++ [x]).length = ws.length + 1 := by simp
    rw [hlen] at h
    have h0 : ws.length + 1 - W = 0 := by omega
    simp [h0]

theorem lastN_lastN_append (W : Nat) (ys cs : List ℚ) :
    lastN W (lastN W ys ++ cs) = lastN W (ys ++ cs) := by
  unfold lastN
  rcases le_or_lt ys.length W with h | h
  · have h0 : ys.length - W = 0 := by omega
    simp [h0]
  · have hk : ys.length - W ≤ ys.length := by omega
    rw [← List.drop_append_of_le_length hk, List.drop_drop]
    congr 1
    simp only [List.length_drop, List.length_append]
    omega

theorem foldl_dequeAppend (W : Nat) (cs : List ℚ) :
    ∀ ws : List ℚ, ws.length ≤ W →
      cs.foldl (dequeAppend W) ws = lastN W (ws ++ cs) := by
  induction cs with
  | nil =>
    intro ws h
    simp [lastN, Nat.sub_eq_zero_of_le h]
  | cons x t ih =>
    intro ws h
    have hlen : (lastN W (ws ++ [x])).length ≤ W := by
      unfold lastN
      rw [List.length_drop]
      omega
    rw [List.foldl_cons, deque_append_eq_lastN, ih _ hlen, lastN_lastN_append]
    congr 1
    simp

theorem mem_dequeAppend {y : ℚ} {W : Nat} {xs : List ℚ} {x : ℚ}
    (h : y ∈ dequeAppend W xs x) : y ∈ xs ∨ y = x := by
  unfold dequeAppend at h
  have h' : y ∈ xs ++ [x] := by
    split at h
    · exact List.drop_subset _ _ h
    · exact h
  rcases List.mem_append.mp h' with h | h
  · exact Or.inl h
  · exact Or.inr (List.mem_singleton.mp h)

theorem run_state (cs : List ℚ) (c : TrafficDensityCalculator) :
    (c.run cs).window_size = c.window_size ∧
    (c.run cs).congestion_threshold = c.congestion_threshold ∧
    (c.run cs).vehicle_counts
      = cs.foldl (dequeAppend c.window_size) c.vehicle_counts := by
  induction cs generalizing c with
  | nil => exact ⟨rfl, rfl, rfl⟩
  | cons x t ih =>
    rcases ih ((c.update x).2) with ⟨h1, h2, h3⟩
    refine ⟨?_, ?_, ?_⟩
    · simpa [TrafficDensityCalculator.run, TrafficDensityCalculator.update] using h1
    · simpa [TrafficDensityCalculator.run, TrafficDensityCalculator.update] using h2
    · simpa [TrafficDensityCalculator.run, TrafficDensityCalculator.update] using h3

theorem c10_single_transition_per_call_witness :
    ((TrafficLight.init "A" none 0).get_current_phase 100).1
      = TrafficLight.nextPhase (TrafficLight.init "A" none 0).current_phase ∧
    ((TrafficLight.init "A" none 0).get_current_phase 100).2.phase_start_time = 100 ∧
    (∀ (m : TrafficLight) (t : ℚ),
      (m.get_current_phase t).1 = m.current_phase ∨
        ((m.get_current_phase t).1 = TrafficLight.nextPhase m.current_phase ∧
          (m.get_current_phase t).2.phase_start_time = t)) :=
  c10_single_transition_per_call (TrafficLight.init "A" none 0) 100
    (by norm_num [TrafficLight.init, TrafficLight.defaultTiming, Timing.get,
      TrafficLight.nextPhase])
    (by norm_num [TrafficLight.init, TrafficLight.defaultTiming, Timing.get,
      TrafficLight.nextPhase])

/-! ## Density estimator (claims C6, C7). -/

/-- C6: the sample window of a density calculator holds exactly the most
recent `W` counts in strict FIFO order after any update sequence; the
density is `0` on an empty window and `min(1, mean(window)/threshold)`
otherwise; and on the concrete example of the spec — samples `[5,10,15,100]`,
`windowSize = 3`, `congestionThreshold = 15` — the window is `[10,15,100]`
and the density is `1`. -/
theorem c6_density_window_fifo (W : Nat) (thr : ℚ) (cs : List ℚ) :
    (TrafficDensityCalculator.run (TrafficDensityCalculator.init W thr) cs).vehicle_counts
      = lastN W cs ∧
    (TrafficDensityCalculator.run (TrafficDensityCalculator.init W thr) cs).calculate_density
      = (if lastN W cs = [] then 0
         else min 1 ((lastN W cs).sum / ((lastN W cs).length : ℚ) / thr)) ∧
    (TrafficDensityCalculator.init 3 15).calculate_density = 0 ∧
    (TrafficDensityCalculator.run (TrafficDensityCalculator.init 3 15)
        [5, 10, 15, 100]).vehicle_counts = [10, 15, 100] ∧
    (TrafficDensityCalculator.run (TrafficDensityCalculator.init 3 15)
        [5, 10, 15, 100]).calculate_density = 1 := by
  obtain ⟨hW, hthr, hcounts⟩ :=
    run_state cs (TrafficDensityCalculator.init W thr)
  have hw : (TrafficDensityCalculator.run (TrafficDensityCalculator.init W thr)
      cs).vehicle_counts = lastN W cs := by
    rw [hcounts]
    simpa [TrafficDensityCalculator.init] using
      foldl_dequeAppend W cs [] (by simp)
  refine ⟨hw, ?_, ?_, ?_, ?_⟩
  · unfold TrafficDensityCalculator.calculate_density
    rw [hw, hthr]
    rfl
  · norm_num [TrafficDensityCalculator.init, TrafficDensityCalculator.calculate_density]
  · norm_num [TrafficDensityCalculator.init, TrafficDensityCalculator.update,
      TrafficDensityCalculator.run, TrafficDensityCalculator.calculate_density,
      dequeAppend, min_def]
  · norm_num [TrafficDensityCalculator.init, TrafficDensityCalculator.update,
      TrafficDensityCalculator.run, TrafficDensityCalculator.calculate_density,
      dequeAppend, min_def]
    simp

/-- C7 counterexample: `calculate_density` never clamps from below, so a
single negative vehicle count yields the density `-1/3 ∉ [0, 1]`, which is
both returned by `update` and recorded in `density_history`. -/
theorem c7_counterexample_negative_count :
    ((TrafficDensityCalculator.init 10 15).update (-5)).1 = -1/3 ∧
    ¬ 0 ≤ ((TrafficDensityCalculator.init 10 15).update (-5)).1 ∧
    ((TrafficDensityCalculator.init 10 15).update (-5)).2.density_history
      = [-1/3] := by
  refine ⟨?_, ?_, ?_⟩ <;>
    norm_num [TrafficDensityCalculator.init, TrafficDensityCalculator.update,
      TrafficDensityCalculator.calculate_density, dequeAppend, min_def]

theorem calculate_density_bounds (c : TrafficDensityCalculator)
    (hthr : 0 < c.congestion_threshold)
    (hw : ∀ x ∈ c.vehicle_counts, 0 ≤ x) :
    0 ≤ c.calculate_density ∧ c.calculate_density ≤ 1 := by
  have hs : 0 ≤ c.vehicle_counts.sum := List.sum_nonneg hw
  by_cases h : c.vehicle_counts = []
  · simp [TrafficDensityCalculator.calculate_density, h]
  · have hq : 0 ≤ c.vehicle_counts.sum / (c.vehicle_counts.length : ℚ)
        / c.congestion_threshold :=
      div_nonneg (div_nonneg hs (by positivity)) hthr.le
    constructor
    · simp only [TrafficDensityCalculator.calculate_density, if_neg h]
      exact le_min (by norm_num) hq
    · simp only [TrafficDensityCalculator.calculate_density, if_neg h]
      exact min_le_left _ _

theorem update_bounds (c : TrafficDensityCalculator) (x : ℚ)
    (hthr : 0 < c.congestion_threshold) (hx : 0 ≤ x)
    (hw : ∀ y ∈ c.vehicle_counts, 0 ≤ y)
    (hh : ∀ d ∈ c.density_history, 0 ≤ d ∧ d ≤ 1) :
    (∀ y ∈ (c.update x).2.vehicle_counts, 0 ≤ y) ∧
    (∀ d ∈ (c.update x).2.density_history, 0 ≤ d ∧ d ≤ 1) ∧
    (c.update x).2.congestion_threshold = c.congestion_threshold ∧
    0 ≤ (c.update x).1 ∧ (c.update x).1 ≤ 1 := by
  have hw' : ∀ y ∈ dequeAppend c.window_size c.vehicle_counts x, 0 ≤ y := by
    intro y hy
    rcases mem_dequeAppend hy with h | h
    · exact hw y h
    · rw [h]; exact hx
  have hbounds :=
    calculate_density_bounds
      { c with vehicle_counts := dequeAppend c.window_size c.vehicle_counts x }
      hthr hw'
  refine ⟨hw', ?_, rfl, hbounds.1, hbounds.2⟩
  intro d hd
  have hd2 : d ∈ dequeAppend 100 c.density_history
      (TrafficDensityCalculator.calculate_density
        { c with vehicle_counts := dequeAppend c.window_size c.vehicle_counts x }) := hd
  rcases mem_dequeAppend hd2 with h | h
  · exact hh d h
  · rw [h]
    exact ⟨hbounds.1, hbounds.2⟩

theorem run_bounds (cs : List ℚ) (c : TrafficDensityCalculator)
    (hthr : 0 < c.congestion_threshold)
    (hw : ∀ y ∈ c.vehicle_counts, 0 ≤ y)
    (hh : ∀ d ∈ c.density_history, 0 ≤ d ∧ d ≤ 1)
    (hcs : ∀ x ∈ cs, 0 ≤ x) :
    (∀ y ∈ (c.run cs).vehicle_counts, 0 ≤ y) ∧
    (∀ d ∈ (c.run cs).density_history, 0 ≤ d ∧ d ≤ 1) ∧
    0 < (c.run cs).congestion_threshold := by
  induction cs generalizing c with
  | nil => exact ⟨hw, hh, hthr⟩
  | cons x t ih =>
    have hx : (0:ℚ) ≤ x := hcs x (by simp)
    obtain ⟨h1, h2, h3, _, _⟩ := update_bounds c x hthr hx hw hh
    have := ih ((c.update x).2) (by rw [h3]; exact hthr) h1 h2
      (fun y hy => hcs y (by simp [hy]))
    simpa [TrafficDensityCalculator.run] using this

/-- C7 amended: provided every supplied count is nonnegative (and the
congestion threshold is positive, as the default `15` is), every computed
density — each value returned by an `update` along the sequence, each value
in `density_history`, and the final `calculate_density` — lies in `[0, 1]`;
a negative count, which the code never rejects, breaks the lower bound. -/
theorem c7_density_bounds_amended (W : Nat) (thr : ℚ) (cs : List ℚ)
    (hthr : 0 < thr) (hcs : ∀ x ∈ cs, 0 ≤ x) :
    (∀ d ∈ (TrafficDensityCalculator.run (TrafficDensityCalculator.init W thr)
        cs).density_history, 0 ≤ d ∧ d ≤ 1) ∧
    0 ≤ (TrafficDensityCalculator.run (TrafficDensityCalculator.init W thr)
        cs).calculate_density ∧
    (TrafficDensityCalculator.run (TrafficDensityCalculator.init W thr)
        cs).calculate_density ≤ 1 ∧
    (∀ pre x post, cs = pre ++ x :: post →
      0 ≤ ((TrafficDensityCalculator.run (TrafficDensityCalculator.init W thr)
          pre).update x).1 ∧
        ((TrafficDensityCalculator.run (TrafficDensityCalculator.init W thr)
          pre).update x).1 ≤ 1) := by
  obtain ⟨h1, h2, h3⟩ :=
    run_bounds cs (TrafficDensityCalculator.init W thr) hthr
      (by intro y hy; simp [TrafficDensityCalculator.init] at hy)
      (by intro d hd; simp [TrafficDensityCalculator.init] at hd) hcs
  have hfinal := calculate_density_bounds _ h3 h1
  refine ⟨h2, hfinal.1, hfinal.2, ?_⟩
  intro pre x post hsplit
  have hpre : ∀ y ∈ pre, (0:ℚ) ≤ y := by
    intro y hy
    exact hcs y (by rw [hsplit]; exact List.mem_append.mpr (Or.inl hy))
  have hx : (0:ℚ) ≤ x := hcs x (by rw [hsplit]; simp)
  obtain ⟨g1, g2, g3⟩ :=
    run_bounds pre (TrafficDensityCalculator.init W thr) hthr
      (by intro y hy; simp [TrafficDensityCalculator.init] at hy)
      (by intro d hd; simp [TrafficDensityCalculator.init] at hd) hpre
  obtain ⟨_, _, _, r1, r2⟩ := update_bounds _ x g3 hx g1 g2
  exact ⟨r1, r2⟩

theorem c7_density_bounds_amended_witness :
    (∀ d ∈ (TrafficDensityCalculator.run (TrafficDensityCalculator.init 3 15)
        [5, 10]).density_history, 0 ≤ d ∧ d ≤ 1) ∧
    0 ≤ (TrafficDensityCalculator.run (TrafficDensityCalculator.init 3 15)
        [5, 10]).calculate_density ∧
    (TrafficDensityCalculator.run (TrafficDensityCalculator.init 3 15)
        [5, 10]).calculate_density ≤ 1 ∧
    (∀ pre x post, ([5, 10] : List ℚ) = pre ++ x :: post →
      0 ≤ ((TrafficDensityCalculator.run (TrafficDensityCalculator.init 3 15)
          pre).update x).1 ∧
        ((TrafficDensityCalculator.run (TrafficDensityCalculator.init 3 15)
          pre).update x).1 ≤ 1) :=
  c7_density_bounds_amended 3 15 [5, 10] (by norm_num)
    (by
      intro x hx
      rcases List.mem_cons.mp hx with h | h
      · rw [h]; norm_num
      · rw [List.mem_singleton.mp h]; norm_num)

/-! ## Density-driven timing policy (claim C5). -/

/-- C5 counterexample: at density `d = 1/10` the code stores
`red = max(15, int(30·(1 − 0.05))) = 28`, while the formula of the claim
`max(15, 30·(1 − d·0.5))` yields `28.5` — the code truncates the red time to
an integer before storing it, which the red-time formula of the claim omits. -/
theorem c5_counterexample_red_truncation :
    (alistGet? (oneLightCtrl.update_traffic_density "A" (1/10) 0).2.traffic_lights
        "A").map (fun l => l.timing.red) = some 28 ∧
    max 15 (30 * (1 - (1/10 : ℚ) * (1/2))) = 57/2 ∧
    (28 : ℚ) ≠ 57/2 := by
  refine ⟨?_, ?_, by norm_num⟩
  · norm_num [oneLightCtrl, TrafficLightController.init,
      TrafficLightController.add_traffic_light,
      TrafficLightController.update_traffic_density,
      TrafficLightController.adjust_timing_based_on_density,
      TrafficLight.init, TrafficLight.defaultTiming, TrafficLight.adjust_timing,
      Timing.set, Timing.get, alistGet?, alistSet, alistGetD, pyInt]
  · rw [max_eq_right (by norm_num)]
    norm_num

/-- C5 amended: for a registered signal, `update_traffic_density` stores the
density, leaves the yellow timing unchanged, and applies through
`adjust_timing` the values `green = clamp(int(30 + (60−30)·d), 15, 60)` and
`red = max(15, int(30·(1 − d·0.5)))` — both truncated to integer seconds by
the Python `int()`; the examples of the claim hold: `d = 0` gives green 30 / red 30,
`d = 1` gives green 60 / red 15, and `d = 1/2` gives green 45. -/
theorem c5_timing_policy_amended (c : TrafficLightController) (id : String)
    (d now : ℚ) (l : TrafficLight)
    (hl : alistGet? c.traffic_lights id = some l) :
    ((c.update_traffic_density id d now).1 = true ∧
     alistGetD (c.update_traffic_density id d now).2.traffic_densities id 0 = d ∧
     alistGet? (c.update_traffic_density id d now).2.traffic_lights id = some
      { l with
          timing :=
            { green := ((max 15 (min 60 (pyInt (30 + (60 - 30) * d))) : ℤ) : ℚ)
              yellow := l.timing.yellow
              red := ((max 15 (pyInt (30 * (1 - d * (1/2)))) : ℤ) : ℚ) }
          timing_history := l.timing_history ++
            [{ timestamp := now, phase := Phase.green, old_value := l.timing.green,
               new_value := ((max 15 (min 60 (pyInt (30 + (60 - 30) * d))) : ℤ) : ℚ) },
             { timestamp := now, phase := Phase.red, old_value := l.timing.red,
               new_value := ((max 15 (pyInt (30 * (1 - d * (1/2)))) : ℤ) : ℚ) }] }) ∧
    (alistGet? (oneLightCtrl.update_traffic_density "A" 0 0).2.traffic_lights
        "A").map (fun l => (l.timing.green, l.timing.red)) = some (30, 30) ∧
    (alistGet? (oneLightCtrl.update_traffic_density "A" 1 0).2.traffic_lights
        "A").map (fun l => (l.timing.green, l.timing.red)) = some (60, 15) ∧
    (alistGet? (oneLightCtrl.update_traffic_density "A" (1/2) 0).2.traffic_lights
        "A").map (fun l => l.timing.green) = some 45 := by
  have hsome : (alistGet? c.traffic_lights id).isSome = true := by rw [hl]; rfl
  refine ⟨⟨?_, ?_, ?_⟩, ?_, ?_, ?_⟩
  · simp [TrafficLightController.update_traffic_density, hsome]
  · simp [TrafficLightController.update_traffic_density, hsome,
      TrafficLightController.adjust_timing_based_on_density, hl, alistGetD,
      alistGet?_set_self]
  · simp [TrafficLightController.update_traffic_density, hsome,
      TrafficLightController.adjust_timing_based_on_density, hl, alistGet?_set_self,
      TrafficLight.adjust_timing, Timing.set, Timing.get]
  all_goals
    norm_num [oneLightCtrl, TrafficLightController.init,
      TrafficLightController.add_traffic_light,
      TrafficLightController.update_traffic_density,
      TrafficLightController.adjust_timing_based_on_density,
      TrafficLight.init, TrafficLight.defaultTiming, TrafficLight.adjust_timing,
      Timing.set, Timing.get, alistGet?, alistSet, alistGetD, pyInt]

theorem c5_timing_policy_amended_witness :
    (oneLightCtrl.update_traffic_density "A" 0 0).1 = true ∧
    alistGetD (oneLightCtrl.update_traffic_density "A" 0 0).2.traffic_densities
      "A" 0 = 0 ∧
    (alistGet? (oneLightCtrl.update_traffic_density "A" 0 0).2.traffic_lights
        "A").map (fun l => (l.timing.green, l.timing.yellow, l.timing.red))
      = some (30, 5, 30) := by
  have h := c5_timing_policy_amended oneLightCtrl "A" 0 0
    (TrafficLight.init "A" none 0) (by rfl)
  refine ⟨h.1.1, h.1.2.1, ?_⟩
  rw [h.1.2.2]
  norm_num [TrafficLight.init, TrafficLight.defaultTiming, pyInt]

/-! ## Coordination groups (claim C8). -/

namespace TrafficLightController

theorem connectStep_get_other (ids : List String)
    (m : List (String × TrafficLight)) (i j : String) (hij : j ≠ i) :
    alistGet? (connectStep ids m i) j = alistGet? m j := by
  unfold connectStep
  cases hm : alistGet? m i with
  | none => rfl
  | some light => exact alistGet?_set_other m i j _ hij

theorem connectStep_isSome (ids : List String)
    (m : List (String × TrafficLight)) (i j : String)
    (h : (alistGet? m j).isSome) :
    (alistGet? (connectStep ids m i) j).isSome := by
  unfold connectStep
  cases hm : alistGet? m i with
  | none => exact h
  | some light => exact alistGet?_set_isSome m i j _ h

theorem connectStep_get_self (ids : List String)
    (m : List (String × TrafficLight)) (i : String) (light : TrafficLight)
    (h : alistGet? m i = some light) :
    alistGet? (connectStep ids m i) i
      = some { light with connected_lights := ids.filter (fun x => x ≠ i) } := by
  unfold connectStep
  rw [h]
  exact alistGet?_set_self m i _

theorem connectGroup_get_not_mem (ids : List String) (j : String) :
    ∀ (todo : List String) (m : List (String × TrafficLight)), j ∉ todo →
      alistGet? (connectGroup ids todo m) j = alistGet? m j := by
  intro todo
  induction todo with
  | nil => intro m _; rfl
  | cons h t ih =>
    intro m hj
    have hjt : j ∉ t := fun hh => hj (List.mem_cons.mpr (Or.inr hh))
    have hjh : j ≠ h := fun hh => hj (by rw [hh]; exact List.mem_cons_self h t)
    show alistGet? (connectGroup ids t (connectStep ids m h)) j = alistGet? m j
    rw [ih (connectStep ids m h) hjt, connectStep_get_other ids m h j hjh]

theorem connectGroup_connected (ids : List String) (i : String) :
    ∀ (todo : List String) (m : List (String × TrafficLight)), i ∈ todo →
      (∀ j ∈ todo, (alistGet? m j).isSome) →
      (alistGet? (connectGroup ids todo m) i).map TrafficLight.connected_lights
        = some (ids.filter (fun x => x ≠ i)) := by
  intro todo
  induction todo with
  | nil => intro m hi; cases hi
  | cons h t ih =>
    intro m hi hall
    have hall' : ∀ j ∈ t, (alistGet? (connectStep ids m h) j).isSome :=
      fun j hj => connectStep_isSome ids m h j (hall j (List.mem_cons.mpr (Or.inr hj)))
    show (alistGet? (connectGroup ids t (connectStep ids m h)) i).map
        TrafficLight.connected_lights = some (ids.filter (fun x => x ≠ i))
    by_cases hit : i ∈ t
    · exact ih (connectStep ids m h) hit hall'
    · have hih : i = h := by
        rcases List.mem_cons.mp hi with h1 | h1
        · exact h1
        · exact absurd h1 hit
      subst hih
      obtain ⟨lh, hlh⟩ := Option.isSome_iff_exists.mp
        (hall i (List.mem_cons_self i t))
      rw [connectGroup_get_not_mem ids i t _ hit, connectStep_get_self ids m i lh hlh]
      rfl

/-- C8: `create_coordination_group(ids)` validates every id before any
mutation — if any id is unregistered it returns `False` and changes nothing
(no group stored, no `connected_lights` touched); if all are registered it
returns `True`, appends the group, leaves densities and non-members alone,
and sets the `connected_lights` of each member to exactly the other members of
the group. -/
theorem c8_create_coordination_group (c : TrafficLightController)
    (ids : List String) :
    ((∃ i ∈ ids, alistGet? c.traffic_lights i = none) →
      c.create_coordination_group ids = (false, c)) ∧
    ((∀ i ∈ ids, (alistGet? c.traffic_lights i).isSome) →
      (c.create_coordination_group ids).1 = true ∧
      (c.create_coordination_group ids).2.coordination_groups
        = c.coordination_groups ++ [ids] ∧
      (c.create_coordination_group ids).2.traffic_densities
        = c.traffic_densities ∧
      (∀ i ∈ ids, (alistGet? (c.create_coordination_group ids).2.traffic_lights
          i).map TrafficLight.connected_lights
        = some (ids.filter (fun x => x ≠ i))) ∧
      (∀ j, j ∉ ids →
        alistGet? (c.create_coordination_group ids).2.traffic_lights j
          = alistGet? c.traffic_lights j)) := by
  constructor
  · rintro ⟨i, hi, hnone⟩
    unfold TrafficLightController.create_coordination_group
    rw [if_neg]
    intro hall
    rw [List.all_eq_true] at hall
    have hsome := hall i hi
    rw [hnone] at hsome
    exact Bool.noConfusion hsome
  · intro hall
    have hcond : ids.all (fun i => (alistGet? c.traffic_lights i).isSome) = true := by
      rw [List.all_eq_true]
      intro i hi
      exact hall i hi
    unfold TrafficLightController.create_coordination_group
    rw [if_pos hcond]
    refine ⟨rfl, rfl, rfl, ?_, ?_⟩
    · intro i hi
      exact connectGroup_connected ids i ids c.traffic_lights hi hall
    · intro j hj
      exact connectGroup_get_not_mem ids j ids c.traffic_lights hj

theorem c8_create_coordination_group_witness :
    (twoLightCtrl.create_coordination_group ["A", "B"]).1 = true ∧
    (twoLightCtrl.create_coordination_group ["A", "B"]).2.coordination_groups
      = [["A", "B"]] ∧
    (alistGet? (twoLightCtrl.create_coordination_group ["A", "B"]).2.traffic_lights
        "A").map TrafficLight.connected_lights = some ["B"] ∧
    (alistGet? (twoLightCtrl.create_coordination_group ["A", "B"]).2.traffic_lights
        "B").map TrafficLight.connected_lights = some ["A"] := by
  have h := (c8_create_coordination_group twoLightCtrl ["A", "B"]).2 (by decide)
  refine ⟨h.1, ?_, ?_, ?_⟩
  · rw [h.2.1]
    rfl
  · rw [h.2.2.2.1 "A" (by simp)]
    rfl
  · rw [h.2.2.2.1 "B" (by simp)]
    rfl

end TrafficLightController

/-! ## Green-wave coordination (claim C4). -/

namespace TrafficLightController

theorem scanMaxAux_spec (densities : List (String × ℚ)) :
    ∀ (ids : List String) (acc : ℚ × Option String),
      (scanMaxAux densities acc ids = acc ∧
        ∀ j ∈ ids, alistGetD densities j 0 ≤ acc.1) ∨
      (∃ pre i post, ids = pre ++ i :: post ∧
        scanMaxAux densities acc ids = (alistGetD densities i 0, some i) ∧
        acc.1 < alistGetD densities i 0 ∧
        (∀ j ∈ pre, alistGetD densities j 0 < alistGetD densities i 0) ∧
        (∀ j ∈ post, alistGetD densities j 0 ≤ alistGetD densities i 0)) := by
  intro ids
  induction ids with
  | nil =>
    intro acc
    left
    exact ⟨rfl, by simp⟩
  | cons h t ih =>
    intro acc
    by_cases hcmp : alistGetD densities h 0 > acc.1
    · rcases ih (alistGetD densities h 0, some h) with ⟨heq, hle⟩ |
        ⟨pre, i, post, hsplit, heq, hlt, hpre, hpost⟩
      · right
        refine ⟨[], h, t, rfl, ?_, hcmp, by simp, fun j hj => hle j hj⟩
        show scanMaxAux densities
          (if alistGetD densities h 0 > acc.1
           then (alistGetD densities h 0, some h) else acc) t = _
        rw [if_pos hcmp, heq]
      · right
        refine ⟨h :: pre, i, post, by rw [hsplit]; rfl, ?_, lt_trans hcmp hlt, ?_, hpost⟩
        · show scanMaxAux densities
            (if alistGetD densities h 0 > acc.1
             then (alistGetD densities h 0, some h) else acc) t = _
          rw [if_pos hcmp, heq]
        · intro j hj
          rcases List.mem_cons.mp hj with hjh | hj'
          · rw [hjh]; exact hlt
          · exact hpre j hj'
    · rcases ih acc with ⟨heq, hle⟩ |
        ⟨pre, i, post, hsplit, heq, hlt, hpre, hpost⟩
      · left
        constructor
        · show scanMaxAux densities
            (if alistGetD densities h 0 > acc.1
             then (alistGetD densities h 0, some h) else acc) t = acc
          rw [if_neg hcmp, heq]
        · intro j hj
          rcases List.mem_cons.mp hj with hjh | hj'
          · rw [hjh]; exact le_of_not_lt hcmp
          · exact hle j hj'
      · right
        refine ⟨h :: pre, i, post, by rw [hsplit]; rfl, ?_, hlt, ?_, hpost⟩
        · show scanMaxAux densities
            (if alistGetD densities h 0 > acc.1
             then (alistGetD densities h 0, some h) else acc) t = _
          rw [if_neg hcmp, heq]
        · intro j hj
          rcases List.mem_cons.mp hj with hjh | hj'
          · rw [hjh]; exact lt_of_le_of_lt (le_of_not_lt hcmp) hlt
          · exact hpre j hj'

theorem scanMaxDensity_argmax (densities : List (String × ℚ)) (ids : List String)
    (hne : ids ≠ []) (hnn : ∀ j ∈ ids, 0 ≤ alistGetD densities j 0) :
    ∃ pre i post, ids = pre ++ i :: post ∧
      scanMaxDensity densities ids = (alistGetD densities i 0, some i) ∧
      (∀ j ∈ ids, alistGetD densities j 0 ≤ alistGetD densities i 0) ∧
      (∀ j ∈ pre, alistGetD densities j 0 < alistGetD densities i 0) := by
  rcases scanMaxAux_spec densities ids (-1, none) with ⟨heq, hle⟩ |
    ⟨pre, i, post, hsplit, heq, hlt, hpre, hpost⟩
  · cases ids with
    | nil => exact absurd rfl hne
    | cons h t =>
      have h1 := hle h (List.mem_cons_self h t)
      have h0 := hnn h (List.mem_cons_self h t)
      exfalso
      have : (0:ℚ) ≤ -1 := le_trans h0 h1
      norm_num at this
  · refine ⟨pre, i, post, hsplit, heq, ?_, hpre⟩
    intro j hj
    rw [hsplit] at hj
    rcases List.mem_append.mp hj with hj | hj
    · exact le_of_lt (hpre j hj)
    · rcases List.mem_cons.mp hj with hjh | hj'
      · rw [hjh]
      · exact hpost j hj'

/-- C4 counterexample: a coordination group may have fewer than two members
(`create_coordination_group` never checks the size), and `_coordinate_group`
skips any such group.  Here the lone member `A` has density `0.9 > 0.7`, is
`red`, is not about to cycle (`get_time_remaining = 16 ≥ 5`) and is not
yellow, so the claim requires `forcePhase(green)` — but `coordinate` leaves
the whole controller unchanged and `A` stays red. -/
theorem c4_counterexample_singleton_group :
    singletonGroupCtrl.coordination_groups = [["A"]] ∧
    alistGetD singletonGroupCtrl.traffic_densities "A" 0 = 9/10 ∧
    ((9:ℚ)/10 > 7/10) ∧
    (alistGet? singletonGroupCtrl.traffic_lights "A").map
      TrafficLight.current_phase = some Phase.red ∧
    (alistGet? singletonGroupCtrl.traffic_lights "A").map
      (fun l => l.get_time_remaining 0) = some 16 ∧
    ¬ (16:ℚ) < 5 ∧
    singletonGroupCtrl.coordinate_lights 0 = some singletonGroupCtrl := by
  refine ⟨rfl, ?_, by norm_num, ?_, ?_, by norm_num, rfl⟩ <;>
    norm_num [singletonGroupCtrl, oneLightCtrl, TrafficLightController.init,
      add_traffic_light, update_traffic_density, adjust_timing_based_on_density,
      create_coordination_group, connectGroup, connectStep,
      TrafficLight.init, TrafficLight.defaultTiming, TrafficLight.adjust_timing,
      TrafficLight.get_time_remaining, Timing.set, Timing.get,
      alistGet?, alistSet, alistGetD, pyInt, max_def]

/-- C4 amended: for a coordination group with at least two members, all
registered with nonempty ids and nonnegative stored densities,
`_coordinate_group` selects the member with the maximum density (ties broken
by the earliest position in the group list) and runs the green-wave override
on it exactly when that density exceeds `0.7` and its phase is not green:
red-and-about-to-cycle (`timeRemaining < 5`) and yellow members are left
unchanged, any other member is forced green immediately; singleton groups
are skipped entirely. -/
theorem c4_coordinate_group_amended (c : TrafficLightController)
    (ids : List String) (now : ℚ)
    (hlen : 2 ≤ ids.length)
    (hnn : ∀ j ∈ ids, 0 ≤ alistGetD c.traffic_densities j 0)
    (hne : ∀ j ∈ ids, j ≠ "")
    (hreg : ∀ j ∈ ids, (alistGet? c.traffic_lights j).isSome) :
    ∃ pre i post l, ids = pre ++ i :: post ∧
      alistGet? c.traffic_lights i = some l ∧
      (∀ j ∈ ids, alistGetD c.traffic_densities j 0
        ≤ alistGetD c.traffic_densities i 0) ∧
      (∀ j ∈ pre, alistGetD c.traffic_densities j 0
        < alistGetD c.traffic_densities i 0) ∧
      c.coordinate_group ids now =
        some
          (if l.current_phase ≠ Phase.green ∧
              alistGetD c.traffic_densities i 0 > 7/10 then
            (if l.current_phase = Phase.red ∧ l.get_time_remaining now < 5 then c
             else if l.current_phase = Phase.yellow then c
             else { c with traffic_lights :=
                 (alistSet c.traffic_lights i (l.force_phase Phase.green now).2) })
           else c) := by
  have hne0 : ids ≠ [] := by
    intro h
    rw [h] at hlen
    norm_num at hlen
  obtain ⟨pre, i, post, hsplit, hscan, hmax, hpre⟩ :=
    scanMaxDensity_argmax c.traffic_densities ids hne0 hnn
  have hiin : i ∈ ids := by
    rw [hsplit]
    exact List.mem_append.mpr (Or.inr (List.mem_cons_self i post))
  obtain ⟨l, hl⟩ := Option.isSome_iff_exists.mp (hreg i hiin)
  refine ⟨pre, i, post, l, hsplit, hl, hmax, hpre, ?_⟩
  have hlen' : ¬ ids.length < 2 := by omega
  have hallc : ((ids.drop 1).all
      (fun j => (alistGet? c.traffic_lights j).isSome)) = true := by
    rw [List.all_eq_true]
    intro j hj
    exact hreg j (List.mem_of_mem_drop hj)
  have hallset : ((ids.drop 1).all (fun j => (alistGet?
      (alistSet c.traffic_lights i (l.force_phase Phase.green now).2)
      j).isSome)) = true := by
    rw [List.all_eq_true]
    intro j hj
    exact alistGet?_set_isSome c.traffic_lights i j _
      (hreg j (List.mem_of_mem_drop hj))
  unfold coordinate_group
  rw [if_neg hlen', hscan]
  dsimp only
  rw [if_neg (hne i hiin), hl]
  dsimp only
  by_cases hcond : l.current_phase ≠ Phase.green ∧
      alistGetD c.traffic_densities i 0 > 7/10
  · rw [if_pos hcond]
    unfold force_green_wave
    rw [hl]
    dsimp only
    rw [if_pos hcond.1]
    by_cases h1 : l.current_phase = Phase.red ∧ l.get_time_remaining now < 5
    · rw [if_pos h1, if_pos hallc, if_pos hcond]
    · rw [if_neg h1]
      by_cases h2 : l.current_phase = Phase.yellow
      · rw [if_pos h2, if_pos hallc, if_pos hcond]
      · rw [if_neg h2]
        dsimp only
        rw [if_pos hallset, if_pos hcond]
  · rw [if_neg hcond, if_neg hcond]

theorem c4_coordinate_group_amended_witness :
    ∃ pre i post l, (["A", "B"] : List String) = pre ++ i :: post ∧
      alistGet? hotColdCtrl.traffic_lights i = some l ∧
      (∀ j ∈ (["A", "B"] : List String),
        alistGetD hotColdCtrl.traffic_densities j 0
          ≤ alistGetD hotColdCtrl.traffic_densities i 0) ∧
      (∀ j ∈ pre, alistGetD hotColdCtrl.traffic_densities j 0
        < alistGetD hotColdCtrl.traffic_densities i 0) ∧
      hotColdCtrl.coordinate_group ["A", "B"] 0 =
        some
          (if l.current_phase ≠ Phase.green ∧
              alistGetD hotColdCtrl.traffic_densities i 0 > 7/10 then
            (if l.current_phase = Phase.red ∧ l.get_time_remaining 0 < 5 then
              hotColdCtrl
             else if l.current_phase = Phase.yellow then hotColdCtrl
             else { hotColdCtrl with traffic_lights :=
                 (alistSet hotColdCtrl.traffic_lights i
                   (l.force_phase Phase.green 0).2) })
           else hotColdCtrl) :=
  c4_coordinate_group_amended hotColdCtrl ["A", "B"] 0 (by norm_num)
    (by
      intro j hj
      fin_cases hj
      · rw [show alistGetD hotColdCtrl.traffic_densities "A" 0 = 9/10 from rfl]
        norm_num
      · rw [show alistGetD hotColdCtrl.traffic_densities "B" 0 = 1/10 from rfl]
        norm_num)
    (by
      intro j hj
      fin_cases hj <;> decide)
    (by
      intro j hj
      fin_cases hj
      · exact rfl
      · exact rfl)

end TrafficLightController

/-! ## Control-plane registration (claim C9). -/

/-- C9 counterexample: the registration code checks only membership of the key `id` in the message
and never inspects the `type` field, so a first message of type
`status_update` that carries an `id` still registers the client and installs
the map entry — registration is not limited to well-formed `register`
messages. -/
theorem c9_counterexample_type_not_checked :
    alistGet? [("type", "status_update"), ("id", "L9")] "type"
      = some "status_update" ∧
    ("status_update" : String) ≠ "register" ∧
    handle_registration []
      (FirstRecv.msg [("type", "status_update"), ("id", "L9")]) 7
      = (some "L9", [("L9", 7)]) := by
  refine ⟨rfl, by decide, rfl⟩

/-- C9 amended: a connection is registered exactly when its first message is
well-formed JSON carrying an `id` field (the `type` of the message is not
checked): a closed read, malformed JSON, or a message without `id` drops the
connection with no registration and no new map entry, the server keeps
serving, and a subsequent client whose first message carries an `id`
registers successfully. -/
theorem c9_registration_amended (conns : List (String × Conn))
    (fields : List (String × String)) (sock sock2 : Conn) (id2 : String) :
    handle_registration conns FirstRecv.closed sock = (none, conns) ∧
    handle_registration conns FirstRecv.malformed sock = (none, conns) ∧
    (alistGet? fields "id" = none →
      handle_registration conns (FirstRecv.msg fields) sock = (none, conns)) ∧
    (∀ v, alistGet? fields "id" = some v →
      handle_registration conns (FirstRecv.msg fields) sock
        = (some v, alistSet conns v sock)) ∧
    (alistGet? fields "id" = none →
      handle_registration
        (handle_registration conns (FirstRecv.msg fields) sock).2
        (FirstRecv.msg [("type", "register"), ("id", id2)]) sock2
        = (some id2, alistSet conns id2 sock2)) := by
  refine ⟨rfl, rfl, ?_, ?_, ?_⟩
  · intro h
    simp only [handle_registration]
    rw [h]
  · intro v h
    simp only [handle_registration]
    rw [h]
  · intro h
    have h1 : handle_registration conns (FirstRecv.msg fields) sock
        = (none, conns) := by
      simp only [handle_registration]
      rw [h]
    rw [h1]
    rfl

theorem c9_registration_amended_witness :
    handle_registration [] FirstRecv.closed 3 = (none, []) ∧
    handle_registration [] FirstRecv.malformed 3 = (none, []) ∧
    (alistGet? [("type", "register")] "id" = none →
      handle_registration [] (FirstRecv.msg [("type", "register")]) 3
        = (none, [])) ∧
    (∀ v, alistGet? [("type", "register")] "id" = some v →
      handle_registration [] (FirstRecv.msg [("type", "register")]) 3
        = (some v, alistSet [] v 3)) ∧
    (alistGet? [("type", "register")] "id" = none →
      handle_registration
        (handle_registration [] (FirstRecv.msg [("type", "register")]) 3).2
        (FirstRecv.msg [("type", "register"), ("id", "L1")]) 4
        = (some "L1", alistSet [] "L1" 4)) :=
  c9_registration_amended [] [("type", "register")] 3 4 "L1"

/-! ## Wire framing of the control plane (claim C1). -/

set_option maxRecDepth 8000 in
/-- C1: the per-connection loop reads fixed 1024-byte chunks and feeds each
chunk to `json.loads` on its own, with no message framing.  A single
well-formed 1094-byte message — longer than one read buffer — arrives split
across two reads; neither fragment is valid JSON, so the loop parses the
message zero times instead of exactly once.  Likewise two complete messages
concatenated in one read parse zero times.  This is exactly the fixed-size
single-read behaviour the specification rules out. -/
theorem c1_fixed_read_drops_messages :
    (json_loads bigMsg).isSome = true ∧
    bigMsg.length = 1094 ∧
    (recvChunks 1024 bigMsg).length = 2 ∧
    client_loop_messages 1024 bigMsg = [] ∧
    (json_loads msgA).isSome = true ∧
    (json_loads msgB).isSome = true ∧
    client_loop_messages 1024 (msgA ++ msgB) = [] := by
  refine ⟨by decide, by decide, by decide, by decide, by decide, by decide,
    by decide⟩

end Traffic
